import Mathlib

/-!
Verification of the table-decoding, readiness-polling and instrumented
command-execution logic of the autopilotpattern testing harness
(source file: testcases.py).

Text is modelled as a list of characters.  Each Python helper is embedded
as a computable Lean function with its source name where possible:

* compose_ps with its local helpers find_column_windows,
  find_rows_from_lines and find_fields_from_row (decoder);
* wait_for_containers, wait_for_service, wait_for_service_removed
  (bounded pollers, modelled over an abstract sequence of query results,
  counting query attempts and one-second sleeps);
* instrument, compose, docker and subprocess.run with check enabled
  (command runner, over an abstract executor mapping an argument vector
  to exit status and merged output).

Python exceptions are modelled by explicit error values; a run of a
fallible operation returns an Except value.
-/

/-- Python regex class backslash-s and the character classes stripped by
str.strip: space, tab, newline, carriage return, vertical tab, form feed. -/
def pyWs (c : Char) : Bool :=
  c == ' ' || c == '\t' || c == '\n' || c == '\r' || c == '\x0b' || c == '\x0c'

/-- Scanner for Python re.split applied to the pattern dash-plus-newline
(one or more dashes followed by a newline), as in line 256 of testcases.py.
The state is the current piece (reversed) and a pending run of dashes.
The fuel models the maxsplit argument: line 256 passes the flag bits
re.S and re.M positionally, so maxsplit is 16 + 8 = 24; once 24 splits
have been made the rest of the text is kept verbatim. -/
def splitDashGo : List Char → Nat → List Char → List Char → List (List Char)
  | [], _, curRev, dashRev => [(dashRev ++ curRev).reverse]
  | c :: rest, fuel, curRev, dashRev =>
    if c == '-' then splitDashGo rest fuel curRev (c :: dashRev)
    else if c == '\n' then
      match dashRev with
      | [] => splitDashGo rest fuel ('\n' :: curRev) []
      | _ :: _ =>
        match fuel with
        | 0 => [curRev.reverse ++ dashRev.reverse ++ '\n' :: rest]
        | fuel2 + 1 => curRev.reverse :: splitDashGo rest fuel2 [] []
    else splitDashGo rest fuel (c :: (dashRev ++ curRev)) []

/-- Embedding of line 256: re.split on runs of dashes followed by a
newline, with maxsplit 24 (see splitDashGo). -/
def pySplit (s : List Char) : List (List Char) := splitDashGo s 24 [] []

/-- Scanner for str.splitlines: the merged subprocess output is produced
with universal newlines, so the only line terminator is the newline
character; a trailing terminator does not open an empty final line. -/
def splitlinesGo : List Char → List Char → List (List Char)
  | [], curRev => match curRev with | [] => [] | _ :: _ => [curRev.reverse]
  | c :: rest, curRev =>
    if c == '\n' then curRev.reverse :: splitlinesGo rest []
    else splitlinesGo rest (c :: curRev)

/-- Python str.splitlines over newline-terminated text. -/
def splitlines (s : List Char) : List (List Char) := splitlinesGo s []

/-- Scanner for re.findall of the pattern dot-star-lazy then two-or-more
whitespace (line 266 of testcases.py): each match is a minimal chunk of
text extended through the whitespace run that closes it.  The state is
the current segment (reversed) and the length of its trailing whitespace
run; an unmatched tail (no closing double-whitespace) is discarded,
exactly as findall discards text after the last match. -/
def segGo : List Char → List Char → Nat → List (List Char)
  | [], curRev, tws => if 2 ≤ tws then [curRev.reverse] else []
  | c :: rest, curRev, tws =>
    if pyWs c then segGo rest (c :: curRev) (tws + 1)
    else if 2 ≤ tws then curRev.reverse :: segGo rest [c] 0
    else segGo rest (c :: curRev) 0

/-- Embedding of the local helper find_column_windows (lines 261-270):
append two spaces to the line, collect the segments closed by runs of
two-or-more whitespace characters, and return the cumulative character
offsets starting at 0. -/
def find_column_windows (line : List Char) : List Nat :=
  List.scanl (fun w len => w + len) 0
    ((segGo (line ++ [' ', ' ']) [] 0).map List.length)

/-- Python line.startswith applied to a single space (line 280). -/
def startsWithSpace : List Char → Bool
  | [] => false
  | c :: _ => c == ' '

/-- Python errors that the decoder can raise: indexError models an
IndexError (list index out of range), typeError models the TypeError
raised by constructing the Container namedtuple from the wrong number
of fields. -/
inductive PyErr where
  | indexError
  | typeError
deriving DecidableEq, Repr

/-- Append an element to the last list of a list of lists; none when the
outer list is empty.  This models the Python statement rows[i].append(line)
at line 284, where i is always len(rows) - 1: with rows empty the index -1
raises an IndexError. -/
def appendToLast {L : Type} : List (List L) → L → Option (List (List L))
  | [], _ => none
  | r :: rs, x =>
    match appendToLast rs x with
    | none => some [r ++ [x]]
    | some rs2 => some (r :: rs2)

/-- Worker for find_rows_from_lines, carrying the rows built so far. -/
def find_rows_aux : List (List (List Char)) → List (List Char) → Except PyErr (List (List (List Char)))
  | acc, [] => .ok acc
  | acc, l :: rest =>
    if startsWithSpace l then
      match appendToLast acc l with
      | none => .error .indexError
      | some acc2 => find_rows_aux acc2 rest
    else find_rows_aux (acc ++ [[l]]) rest

/-- Embedding of the local helper find_rows_from_lines (lines 272-285):
a line that does not start with a space opens a new row, a line that does
start with a space is appended to the current (last) row; a continuation
line before any row raises an IndexError. -/
def find_rows_from_lines (lines : List (List Char)) : Except PyErr (List (List (List Char))) :=
  find_rows_aux [] lines

/-- Scanner for re.sub collapsing runs of two-or-more spaces to a single
space (pattern space-space-plus at line 300).  The flag records whether
the scanner is inside a space run whose single output space was already
emitted.  A run of exactly one space is left alone by the pattern, and is
also left alone here. -/
def collapseGo : List Char → Bool → List Char
  | [], _ => []
  | c :: rest, inRun =>
    if c == ' ' then
      if inRun then collapseGo rest true else ' ' :: collapseGo rest true
    else c :: collapseGo rest false

/-- Collapse every run of spaces to a single space (line 300). -/
def collapseSpaces (l : List Char) : List Char := collapseGo l false

/-- Python str.strip: drop leading and trailing whitespace. -/
def pyStrip (l : List Char) : List Char :=
  ((l.dropWhile pyWs).reverse.dropWhile pyWs).reverse

/-- Scanner for re.sub of the pattern backslash-dot-space replaced by a
dot (line 300): a space directly after a period is removed, scanning
resumes after the removed space. -/
def subDotSpace : List Char → List Char
  | [] => []
  | '.' :: ' ' :: rest => '.' :: subDotSpace rest
  | c :: rest => c :: subDotSpace rest

/-- The per-field scrub of line 300: collapse space runs, strip, then
remove spaces directly after periods, in that order. -/
def scrubField (f : List Char) : List Char := subDotSpace (pyStrip (collapseSpaces f))

/-- Python slicing line[a:b] for non-negative offsets: out-of-range
offsets clamp silently and may produce the empty string. -/
def pySlice (l : List Char) (a b : Nat) : List Char := (l.take b).drop a

/-- Embedding of the local helper find_fields_from_row (lines 287-301):
for each adjacent pair of window offsets, concatenate that slice of every
physical line of the row, then scrub the result.  The output always has
exactly one entry per window pair. -/
def find_fields_from_row (row : List (List Char)) (windows : List Nat) : List (List Char) :=
  (windows.zip windows.tail).map (fun p =>
    scrubField (row.foldl (fun acc line => acc ++ pySlice line p.1 p.2) []))

/-- The Container namedtuple of line 34. -/
structure Container where
  name : List Char
  command : List Char
  state : List Char
  ports : List Char
deriving DecidableEq, Repr

/-- Construction Container(*fields) at line 305: any number of fields
other than four raises a TypeError. -/
def mkContainer : List (List Char) → Except PyErr Container
  | [n, c, s, p] => .ok ⟨n, c, s, p⟩
  | _ => .error .typeError

/-- Embedding of compose_ps (lines 247-305), as a function of the raw
text returned by the compose ps invocation: split off everything up to
and including the first dash-separator line (IndexError when there is no
separator), split the remainder into lines, derive the column windows
from the first remaining line (IndexError when there is none), group the
lines into rows, and build one Container per row. -/
def compose_ps (output : List Char) : Except PyErr (List Container) :=
  match (pySplit output).get? 1 with
  | none => .error .indexError
  | some body =>
    let lines := splitlines body
    match lines.head? with
    | none => .error .indexError
    | some first =>
      let windows := find_column_windows first
      match find_rows_from_lines lines with
      | .error e => .error e
      | .ok rows => rows.mapM (fun row => mkContainer (find_fields_from_row row windows))

/-- Exception classes relevant to the consul-backed pollers: ValueError
and IndexError are named in the except clause at line 431; an IndexError
is in particular what the subscript [1] raises on a malformed (too short)
response; connectionError stands for the requests-level ConnectionError
raised when the registry cannot be reached, which is not named in any
except clause. -/
inductive PyExc where
  | valueError
  | indexError
  | connectionError
deriving DecidableEq, Repr

/-- Whether the except clause at line 431 of wait_for_service catches the
exception: it names exactly ValueError and IndexError. -/
def caught : PyExc → Bool
  | .valueError => true
  | .indexError => true
  | .connectionError => false

/-- The WaitTimeoutError exception of line 40, carrying its message. -/
structure WaitTimeoutError where
  msg : String
deriving DecidableEq, Repr

/-- Outcome of one bounded polling run: the final result, the number of
query attempts made, and the number of one-second sleeps executed (the
elapsed wall time in seconds, queries themselves taking no modelled time). -/
structure PollRun (ρ : Type) where
  result : ρ
  attempts : Nat
  sleeps : Nat
deriving DecidableEq, Repr

/-- The all-up predicate of lines 412-413: every container state equals
the literal Up (vacuously true of an empty snapshot). -/
def allUp (cs : List Container) : Bool := cs.all (fun c => c.state == ("Up").data)

/-- Worker for wait_for_containers (lines 406-418): k is the index of the
next query attempt, the second argument the remaining timeout budget.
Each failed check sleeps one second and decrements the budget; budget
exhaustion raises WaitTimeoutError via the while-else clause. -/
def wfcAux (q : Nat → List Container) : Nat → Nat → PollRun (Except WaitTimeoutError Unit)
  | _, 0 => ⟨.error ⟨"Timed out waiting for containers to start."⟩, 0, 0⟩
  | k, t + 1 =>
    if allUp (q k) then ⟨.ok (), 1, 0⟩
    else
      let r := wfcAux q (k + 1) t
      ⟨r.result, r.attempts + 1, r.sleeps + 1⟩

/-- Embedding of wait_for_containers (lines 406-418) over the abstract
sequence q of compose_ps snapshots, attempt k returning q k.  On success
the Python function returns None, modelled as the unit value. -/
def wait_for_containers (q : Nat → List Container) (timeout : Nat) :
    PollRun (Except WaitTimeoutError Unit) :=
  wfcAux q 0 timeout

/-- One consul health query outcome: a node list, or a raised exception. -/
inductive ConsulResult (α : Type) where
  | ok (nodes : List α)
  | exn (e : PyExc)
deriving DecidableEq, Repr

/-- Result of a wait_for_service run. -/
inductive WfsResult (α : Type) where
  | success (nodes : List α)
  | timeout (msg : String)
  | raised (e : PyExc)
deriving DecidableEq, Repr

/-- The break condition of lines 428-430: nodes is non-empty and the
requested count is zero (falsy) or matched exactly. -/
def wfsPred {α : Type} (count : Nat) (ns : List α) : Bool :=
  !ns.isEmpty && (count == 0 || ns.length == count)

/-- Worker for wait_for_service (lines 420-438).  A query outcome that is
an exception caught by the except clause (ValueError, IndexError) is
swallowed and treated like a failed check; any other exception propagates
at once.  Budget exhaustion raises WaitTimeoutError via while-else. -/
def wfsAux {α : Type} (q : Nat → ConsulResult α) (count : Nat) (name : String) :
    Nat → Nat → PollRun (WfsResult α)
  | _, 0 => ⟨.timeout ("Timeout waiting for " ++ name ++ " to be started"), 0, 0⟩
  | k, t + 1 =>
    match q k with
    | .ok ns =>
      if wfsPred count ns then ⟨.success ns, 1, 0⟩
      else
        let r := wfsAux q count name (k + 1) t
        ⟨r.result, r.attempts + 1, r.sleeps + 1⟩
    | .exn e =>
      if caught e then
        let r := wfsAux q count name (k + 1) t
        ⟨r.result, r.attempts + 1, r.sleeps + 1⟩
      else ⟨.raised e, 1, 0⟩

/-- Embedding of wait_for_service (lines 420-438) over the abstract query
sequence q; on success it returns the node list of the breaking attempt. -/
def wait_for_service {α : Type} (q : Nat → ConsulResult α) (count : Nat)
    (name : String) (timeout : Nat) : PollRun (WfsResult α) :=
  wfsAux q count name 0 timeout

/-- A dynamically-typed Python return value: a node list or a boolean. -/
inductive PyVal (α : Type) where
  | list (xs : List α)
  | bool (b : Bool)
deriving DecidableEq, Repr

/-- Result of a wait_for_service_removed run. -/
inductive WfsrResult (α : Type) where
  | success (v : PyVal α)
  | timeout (msg : String)
  | raised (e : PyExc)
deriving DecidableEq, Repr

/-- Worker for wait_for_service_removed (lines 490-503).  This loop body
has no try clause, so every queried exception propagates at once; the
break fires when the node list is empty, and the function then returns
the literal True, not the node list. -/
def wfsrAux {α : Type} (q : Nat → ConsulResult α) (name : String) :
    Nat → Nat → PollRun (WfsrResult α)
  | _, 0 => ⟨.timeout ("Timeout waiting for " ++ name ++ " to be removed"), 0, 0⟩
  | k, t + 1 =>
    match q k with
    | .exn e => ⟨.raised e, 1, 0⟩
    | .ok ns =>
      if ns.isEmpty then ⟨.success (.bool true), 1, 0⟩
      else
        let r := wfsrAux q name (k + 1) t
        ⟨r.result, r.attempts + 1, r.sleeps + 1⟩

/-- Embedding of wait_for_service_removed (lines 490-503) over the
abstract query sequence q. -/
def wait_for_service_removed {α : Type} (q : Nat → ConsulResult α)
    (name : String) (timeout : Nat) : PollRun (WfsrResult α) :=
  wfsrAux q name 0 timeout

/-- Attempt j of a wait_for_service run neither breaks nor aborts: the
query returned a node list failing the predicate, or raised an exception
that the except clause catches. -/
def wfs_continue {α : Type} (q : Nat → ConsulResult α) (count j : Nat) : Bool :=
  match q j with
  | .ok ns => !wfsPred count ns
  | .exn _e => caught _e

/-- Attempt j of a wait_for_service_removed run neither breaks nor
aborts: the query returned a non-empty node list. -/
def wfsr_continue {α : Type} (q : Nat → ConsulResult α) (j : Nat) : Bool :=
  match q j with
  | .ok ns => !ns.isEmpty
  | .exn _e => false

/-- The CalledProcessError raised by subprocess.run with check enabled:
it carries the full command vector, the exit status and the merged
output captured before the failure. -/
structure CalledProcessError where
  cmd : List String
  returncode : Int
  output : String
deriving DecidableEq, Repr

/-- subprocess.run with check enabled and stderr merged into stdout,
over an abstract executor mapping the argument vector to the exit status
and the merged output text: exit status zero returns the output, any
other status raises CalledProcessError. -/
def subprocess_run (exec : List String → Int × String) (args : List String) :
    Except CalledProcessError String :=
  if (exec args).1 = 0 then .ok (exec args).2
  else .error ⟨args, (exec args).1, (exec args).2⟩

/-- One record of the instrumentation log (lines 112 and 147): the
invoked operation name, its arguments, and the elapsed wall time
(modelled as an abstract number of time units). -/
structure InstrCall where
  opName : String
  args : List String
  elapsed : Nat
deriving DecidableEq, Repr

/-- Embedding of instrument (lines 138-147): run the wrapped operation
and append exactly one record to the log in the finally clause, so the
record is appended on the success path and on the exception path alike,
before the result or the exception reaches the caller. -/
def instrument (opName : String) (fn : List String → Except CalledProcessError String)
    (args : List String) (elapsed : Nat) (log : List InstrCall) :
    Except CalledProcessError String × List InstrCall :=
  match fn args with
  | .ok out => (.ok out, log ++ [⟨opName, args, elapsed⟩])
  | .error e => (.error e, log ++ [⟨opName, args, elapsed⟩])

/-- Default of the COMPOSE environment override (line 25). -/
def COMPOSE : String := "docker-compose"

/-- Default of the DOCKER environment override (line 31). -/
def DOCKER : String := "docker"

/-- Result of a compose invocation: the merged output, or the unittest
failure raised by self.fail(ex) in the except clause of lines 222-224,
carrying the caught CalledProcessError. -/
inductive ComposeResult where
  | ok (out : String)
  | testFailure (ex : CalledProcessError)
deriving DecidableEq, Repr

/-- Embedding of compose (lines 199-224): build the argument vector (the
caller arguments, with falsy ones filtered out, are only appended when
the project name is non-empty, mirroring the indentation at lines
210-212), run it through instrument, and on CalledProcessError print the
output and fail the test instead of letting the exception bubble up. -/
def compose (exec : List String → Int × String) (projectName composeFile : String)
    (args : List String) (elapsed : Nat) (log : List InstrCall) :
    ComposeResult × List InstrCall :=
  let cargs :=
    if projectName = "" then [COMPOSE, "-f", composeFile]
    else [COMPOSE, "-f", composeFile, "-p", projectName] ++ args.filter (fun a => a ≠ "")
  match instrument "run" (subprocess_run exec) cargs elapsed log with
  | (.ok out, log2) => (.ok out, log2)
  | (.error e, log2) => (.testFailure e, log2)

/-- Embedding of docker (lines 227-244): build the argument vector with
falsy arguments filtered out, run it through instrument, and let
CalledProcessError bubble up. -/
def docker (exec : List String → Int × String) (args : List String)
    (elapsed : Nat) (log : List InstrCall) :
    Except CalledProcessError String × List InstrCall :=
  instrument "run" (subprocess_run exec) (DOCKER :: args.filter (fun a => a ≠ "")) elapsed log

/-- Checker: no two consecutive spaces anywhere in the text. -/
def noDoubleSpace : List Char → Bool
  | [] => true
  | [_] => true
  | a :: b :: rest => !(a == ' ' && b == ' ') && noDoubleSpace (b :: rest)

/-- Checker: the text neither starts nor ends with a whitespace character. -/
def strippedOk (l : List Char) : Bool :=
  (match l.head? with | some c => !pyWs c | none => true) &&
  (match l.getLast? with | some c => !pyWs c | none => true)

/-! Concrete inputs and query sequences used by the claim theorems. -/

/-- The raw listing text of the column-boundary property: header line and
one data line, with no dash-separator line anywhere. -/
def c1_input : List Char :=
  ("NAME       STATE      PORTS\nweb_1      Up         80/tcp\n").data

/-- A raw listing in the shape the decoder actually accepts: a banner
line, a dash-separator line, and one four-column data line. -/
def c1_fixed_input : List Char :=
  ("NAME     COMMAND       STATE   PORTS\n------\nweb_1    /bin/start    Up      80/tcp\n").data

/-- A four-column table whose second logical row consists of the single
short line z, covering only the first column window. -/
def c2_pad_input : List Char := ("HEAD\n----\na  b  c  d\nz\n").data

/-- A table whose first data line yields only three column windows. -/
def c2_threecol_input : List Char := ("HEAD\n----\na  b  c\n").data

/-- A listing whose single logical row spans two physical lines: the
ports column wraps onto an indented continuation line (21 leading
spaces, aligning the continuation text with the ports window). -/
def c8_input : List Char :=
  ("NAME  COMMAND  STATE  PORTS\n-----\napp_1  /bin/app  Up  10.0.0.1:80->80/tcp,\n").data
    ++ List.replicate 21 ' ' ++ ("443/tcp\n").data

/-- The same wrapped listing as c8_input, except that the continuation
line is indented with a tab character instead of spaces.  A tab is
whitespace, but line.startswith at line 280 tests for a single space
character only. -/
def c8_tab_input : List Char :=
  ("NAME  COMMAND  STATE  PORTS\n-----\napp_1  /bin/app  Up  10.0.0.1:80->80/tcp,\n\t443/tcp\n").data

/-- A snapshot sequence in which some container is never Up. -/
def c3_qDown : Nat → List Container :=
  fun _ => [⟨("x_1").data, ("cmd").data, ("Restarting").data, ("80/tcp").data⟩]

/-- A consul query sequence that always returns an empty node list. -/
def c3_qEmpty : Nat → ConsulResult Nat := fun _ => .ok []

/-- A consul query sequence whose first attempt raises the IndexError of
a malformed (too short) response tuple and whose later attempts return
one healthy node. -/
def c4_qA : Nat → ConsulResult Nat := fun j => if j = 0 then .exn .indexError else .ok [1]

/-- A consul query sequence that always raises the ConnectionError of an
unreachable registry. -/
def c4_qB : Nat → ConsulResult Nat := fun _ => .exn .connectionError

/-- A consul query sequence with one remaining node on the first attempt
and none afterwards. -/
def c5_q : Nat → ConsulResult Nat := fun j => if j = 0 then .ok [7] else .ok []

/-- A consul query sequence that reaches two healthy nodes on the second
attempt. -/
def c5w_q : Nat → ConsulResult Nat := fun j => if j = 0 then .ok [] else .ok [3, 4]

/-- An executor whose process always exits with status 1 and output boom. -/
def c6_fail_exec : List String → Int × String := fun _ => (1, "boom")

/-- An executor whose process always exits with status 0 and output out. -/
def c6_ok_exec : List String → Int × String := fun _ => (0, "out")

/-! Helper lemmas. -/

/-- A row always yields exactly one field per adjacent pair of window
offsets, however short its lines are. -/
theorem find_fields_length (row : List (List Char)) (windows : List Nat) :
    (find_fields_from_row row windows).length = windows.length - 1 := by
  simp [find_fields_from_row]

/-- Building the Container namedtuple from any number of fields other
than four raises a TypeError. -/
theorem mkContainer_err (fs : List (List Char)) (h : fs.length ≠ 4) :
    mkContainer fs = .error .typeError := by
  match fs with
  | [] => rfl
  | [_] => rfl
  | [_, _] => rfl
  | [_, _, _] => rfl
  | [_, _, _, _] => simp at h
  | _ :: _ :: _ :: _ :: _ :: _ => rfl

/-- When no snapshot ever satisfies the all-up predicate, the container
wait exhausts its whole budget: one query and one sleep per budget unit,
then the timeout error. -/
theorem wfcAux_timeout (q : Nat → List Container) (h : ∀ k, allUp (q k) = false) :
    ∀ t k, wfcAux q k t =
      ⟨.error ⟨"Timed out waiting for containers to start."⟩, t, t⟩ := by
  intro t
  induction t with
  | zero => intro k; rfl
  | succ t ih => intro k; simp [wfcAux, h k, ih (k + 1)]

/-- When every query attempt of a service wait neither breaks nor aborts,
the wait exhausts its whole budget and raises the timeout error. -/
theorem wfsAux_timeout {α : Type} (q : Nat → ConsulResult α) (count : Nat) (name : String)
    (h : ∀ j, wfs_continue q count j = true) :
    ∀ t k, wfsAux q count name k t =
      ⟨.timeout ("Timeout waiting for " ++ name ++ " to be started"), t, t⟩ := by
  intro t
  induction t with
  | zero => intro k; rfl
  | succ t ih =>
    intro k
    have hk := h k
    cases hq : q k with
    | ok ns =>
      simp [wfs_continue, hq] at hk
      simp [wfsAux, hq, hk, ih (k + 1)]
    | exn e =>
      simp [wfs_continue, hq] at hk
      simp [wfsAux, hq, hk, ih (k + 1)]

/-- If the first m attempts (from index k) of a service wait neither
break nor abort and attempt k + m breaks, the wait returns that attempt's
node list after m + 1 queries and m sleeps. -/
theorem wfsAux_success {α : Type} (q : Nat → ConsulResult α) (count : Nat)
    (name : String) (ns : List α) :
    ∀ m t k, (∀ j, j < m → wfs_continue q count (k + j) = true) →
      q (k + m) = .ok ns → wfsPred count ns = true → m < t →
      wfsAux q count name k t = ⟨.success ns, m + 1, m⟩ := by
  intro m
  induction m with
  | zero =>
    intro t k _h hq hp ht
    cases t with
    | zero => omega
    | succ t =>
      rw [Nat.add_zero] at hq
      simp [wfsAux, hq, hp]
  | succ m ih =>
    intro t k hcont hq hp ht
    cases t with
    | zero => omega
    | succ t =>
      have hrec : wfsAux q count name (k + 1) t = ⟨.success ns, m + 1, m⟩ := by
        apply ih
        · intro j hj
          have hc := hcont (j + 1) (by omega)
          rwa [show k + (j + 1) = (k + 1) + j by omega] at hc
        · rwa [show k + (m + 1) = (k + 1) + m by omega] at hq
        · exact hp
        · omega
      have h0 := hcont 0 (by omega)
      rw [Nat.add_zero] at h0
      cases hqk : q k with
      | ok ns0 =>
        simp [wfs_continue, hqk] at h0
        simp [wfsAux, hqk, h0, hrec]
      | exn e =>
        simp [wfs_continue, hqk] at h0
        simp [wfsAux, hqk, h0, hrec]

/-- If the first m attempts of a service wait neither break nor abort and
attempt k + m raises an exception the except clause does not catch, the
wait aborts at once with that exception. -/
theorem wfsAux_raised {α : Type} (q : Nat → ConsulResult α) (count : Nat)
    (name : String) (e : PyExc) :
    ∀ m t k, (∀ j, j < m → wfs_continue q count (k + j) = true) →
      q (k + m) = .exn e → caught e = false → m < t →
      wfsAux q count name k t = ⟨.raised e, m + 1, m⟩ := by
  intro m
  induction m with
  | zero =>
    intro t k _h hq hc ht
    cases t with
    | zero => omega
    | succ t =>
      rw [Nat.add_zero] at hq
      simp [wfsAux, hq, hc]
  | succ m ih =>
    intro t k hcont hq hc ht
    cases t with
    | zero => omega
    | succ t =>
      have hrec : wfsAux q count name (k + 1) t = ⟨.raised e, m + 1, m⟩ := by
        apply ih
        · intro j hj
          have hcj := hcont (j + 1) (by omega)
          rwa [show k + (j + 1) = (k + 1) + j by omega] at hcj
        · rwa [show k + (m + 1) = (k + 1) + m by omega] at hq
        · exact hc
        · omega
      have h0 := hcont 0 (by omega)
      rw [Nat.add_zero] at h0
      cases hqk : q k with
      | ok ns0 =>
        simp [wfs_continue, hqk] at h0
        simp [wfsAux, hqk, h0, hrec]
      | exn e0 =>
        simp [wfs_continue, hqk] at h0
        simp [wfsAux, hqk, h0, hrec]

/-- If the first m attempts of a removal wait return non-empty node lists
and attempt k + m returns the empty list, the wait returns the literal
True after m + 1 queries and m sleeps. -/
theorem wfsrAux_success {α : Type} (q : Nat → ConsulResult α) (name : String) :
    ∀ m t k, (∀ j, j < m → wfsr_continue q (k + j) = true) →
      q (k + m) = .ok ([] : List α) → m < t →
      wfsrAux q name k t = ⟨.success (.bool true), m + 1, m⟩ := by
  intro m
  induction m with
  | zero =>
    intro t k _h hq ht
    cases t with
    | zero => omega
    | succ t =>
      rw [Nat.add_zero] at hq
      simp [wfsrAux, hq]
  | succ m ih =>
    intro t k hcont hq ht
    cases t with
    | zero => omega
    | succ t =>
      have hrec : wfsrAux q name (k + 1) t = ⟨.success (.bool true), m + 1, m⟩ := by
        apply ih
        · intro j hj
          have hcj := hcont (j + 1) (by omega)
          rwa [show k + (j + 1) = (k + 1) + j by omega] at hcj
        · rwa [show k + (m + 1) = (k + 1) + m by omega] at hq
        · omega
      have h0 := hcont 0 (by omega)
      rw [Nat.add_zero] at h0
      cases hqk : q k with
      | ok ns0 =>
        simp [wfsr_continue, hqk] at h0
        simp [wfsrAux, hqk, h0, hrec]
      | exn e0 =>
        simp [wfsr_continue, hqk] at h0

/-- Appending a line to the last row of a non-empty row list. -/
theorem appendToLast_snoc {L : Type} (acc : List (List L)) (row : List L) (x : L) :
    appendToLast (acc ++ [row]) x = some (acc ++ [row ++ [x]]) := by
  induction acc with
  | nil => rfl
  | cons r rs ih => simp [appendToLast, ih]

/-- Continuation lines are all absorbed into the current last row. -/
theorem find_rows_aux_wrap (conts : List (List Char)) :
    ∀ acc row, (∀ l ∈ conts, startsWithSpace l = true) →
      find_rows_aux (acc ++ [row]) conts = .ok (acc ++ [row ++ conts]) := by
  induction conts with
  | nil => intro acc row _; simp [find_rows_aux]
  | cons l rest ih =>
    intro acc row h
    have hl : startsWithSpace l = true := h l (by simp)
    rw [find_rows_aux, if_pos hl, appendToLast_snoc]
    have := ih acc (row ++ [l]) (fun x hx => h x (List.mem_cons_of_mem _ hx))
    simpa using this

/-- A non-indented line followed only by indented continuation lines is
grouped into exactly one logical row containing all those lines. -/
theorem find_rows_single (l0 : List Char) (conts : List (List Char))
    (h0 : startsWithSpace l0 = false) (h : ∀ l ∈ conts, startsWithSpace l = true) :
    find_rows_from_lines (l0 :: conts) = .ok [l0 :: conts] := by
  unfold find_rows_from_lines
  rw [find_rows_aux, if_neg (by simp [h0])]
  have := find_rows_aux_wrap conts [] [l0] h
  simpa using this

/-- After the collapsing scanner has just emitted the single space of a
run, the rest of its output cannot begin with another space. -/
theorem collapseGo_true_head (l : List Char) : (collapseGo l true).head? ≠ some ' ' := by
  induction l with
  | nil => simp [collapseGo]
  | cons c rest ih =>
    by_cases hc : c = ' '
    · subst hc; simpa [collapseGo] using ih
    · simp [collapseGo, hc]

/-- Extending a double-space-free text by one character that does not
create a space pair at the junction. -/
theorem noDoubleSpace_cons (c : Char) (l : List Char) (h1 : noDoubleSpace l = true)
    (h2 : c = ' ' → l.head? ≠ some ' ') : noDoubleSpace (c :: l) = true := by
  cases l with
  | nil => rfl
  | cons d rest =>
    simp only [noDoubleSpace, Bool.and_eq_true, Bool.not_eq_true']
    refine ⟨?_, h1⟩
    by_cases hc : c = ' '
    · have hd : d ≠ ' ' := fun hd => h2 hc (by simp [hd])
      simp [hd]
    · simp [hc]

/-- The space-collapsing scanner never outputs two consecutive spaces. -/
theorem collapseGo_noDouble : ∀ (l : List Char) (b : Bool), noDoubleSpace (collapseGo l b) = true := by
  intro l
  induction l with
  | nil => intro b; rfl
  | cons c rest ih =>
    intro b
    by_cases hc : c = ' '
    · subst hc
      cases b with
      | true =>
        have he : collapseGo (' ' :: rest) true = collapseGo rest true := by
          simp [collapseGo]
        rw [he]
        exact ih true
      | false =>
        have he : collapseGo (' ' :: rest) false = ' ' :: collapseGo rest true := by
          simp [collapseGo]
        rw [he]
        exact noDoubleSpace_cons _ _ (ih true) (fun _ => collapseGo_true_head rest)
    · have he : collapseGo (c :: rest) b = c :: collapseGo rest false := by
        simp [collapseGo, hc]
      rw [he]
      exact noDoubleSpace_cons _ _ (ih false) (fun h => absurd h hc)

/-- The first character surviving dropWhile fails the dropped predicate. -/
theorem head_dropWhile (p : Char → Bool) (l : List Char) :
    ∀ c, (l.dropWhile p).head? = some c → p c = false := by
  induction l with
  | nil => intro c h; simp at h
  | cons a rest ih =>
    intro c h
    by_cases ha : p a = true
    · rw [List.dropWhile_cons, if_pos ha] at h
      exact ih c h
    · rw [List.dropWhile_cons, if_neg ha] at h
      simp at h
      subst h
      exact eq_false_of_ne_true ha

/-- dropWhile from the front leaves the last element unchanged unless it
empties the list. -/
theorem getLast_dropWhile (p : Char → Bool) (l : List Char) :
    l.dropWhile p = [] ∨ (l.dropWhile p).getLast? = l.getLast? := by
  induction l with
  | nil => exact Or.inl rfl
  | cons a rest ih =>
    by_cases ha : p a = true
    · rw [List.dropWhile_cons, if_pos ha]
      rcases eq_or_ne rest [] with hr | hr
      · subst hr
        exact Or.inl rfl
      · rcases ih with h | h
        · exact Or.inl h
        · right
          rw [h]
          obtain ⟨b, l2, rfl⟩ := List.exists_cons_of_ne_nil hr
          exact (List.getLast?_cons_cons ..).symm
    · rw [List.dropWhile_cons, if_neg ha]
      exact Or.inr rfl

/-- Introduction rule for the stripped-ness checker. -/
theorem strippedOk_intro (l : List Char)
    (h1 : ∀ c, l.head? = some c → pyWs c = false)
    (h2 : ∀ c, l.getLast? = some c → pyWs c = false) : strippedOk l = true := by
  unfold strippedOk
  cases hh : l.head? with
  | none =>
    cases hg : l.getLast? with
    | none => rfl
    | some d => simp [h2 d hg]
  | some c =>
    cases hg : l.getLast? with
    | none => simp [h1 c hh]
    | some d => simp [h1 c hh, h2 d hg]

/-- Python strip leaves no leading or trailing whitespace behind. -/
theorem strippedOk_pyStrip (f : List Char) : strippedOk (pyStrip f) = true := by
  apply strippedOk_intro
  · intro c hc
    unfold pyStrip at hc
    rw [List.head?_reverse] at hc
    rcases getLast_dropWhile pyWs (f.dropWhile pyWs).reverse with h | h
    · rw [h] at hc
      simp at hc
    · rw [h, List.getLast?_reverse] at hc
      exact head_dropWhile pyWs f c hc
  · intro c hc
    unfold pyStrip at hc
    rw [List.getLast?_reverse] at hc
    exact head_dropWhile pyWs _ c hc

/-! Claim theorems. -/

/-- Claim C1, counterexample: on the claimed raw text, a header line and
one data line with no dash-separator line, compose_ps does not yield one
record; the subscript [1] on the result of the dash split raises an
IndexError, because the split finds no separator and returns a single
piece.  The decoder has no header-less mode. -/
theorem c1_headerless_counterexample : compose_ps c1_input = .error .indexError := by
  rfl

/-- Claim C1, amended: the decoder requires a dash-separator line and a
four-column layout.  For a banner line, a separator line of dashes, and
the single data line web_1 / /bin/start / Up / 80/tcp, compose_ps yields
exactly that one record; the column windows are derived from the first
line after the separator, which is the first data line. -/
theorem c1_decoder_amended :
    compose_ps c1_fixed_input =
      .ok [⟨("web_1").data, ("/bin/start").data, ("Up").data, ("80/tcp").data⟩] := by
  rfl

/-- Claim C2, counterexample: in a four-column table whose second logical
row is the single short line z, the decoder succeeds and returns a
partially-populated record whose last three fields are the empty string;
no error is raised for the short row. -/
theorem c2_short_row_counterexample :
    compose_ps c2_pad_input =
      .ok [⟨("a").data, ("b").data, ("c").data, ("d").data⟩,
           ⟨("z").data, [], [], []⟩] := by
  rfl

/-- Claim C2, amended: a decoded logical row always yields exactly one
field per column window implied by the header line, with lines shorter
than a window contributing empty substrings, so a textually short row
produces a record with empty-string fields rather than an error; the
decode fails (with the TypeError of the namedtuple constructor, the
closest the code has to a MalformedTableError) exactly when the number
of fields differs from the four the record type implies, as when the
header yields three columns. -/
theorem c2_field_count_amended :
    (∀ (row : List (List Char)) (windows : List Nat),
      (find_fields_from_row row windows).length = windows.length - 1) ∧
    (∀ fields : List (List Char), fields.length ≠ 4 →
      mkContainer fields = .error .typeError) ∧
    compose_ps c2_threecol_input = .error .typeError :=
  ⟨find_fields_length, mkContainer_err, by rfl⟩

/-- Witness for the amended claim C2, at a one-line row with the windows
of the padded example and at a one-field list. -/
theorem c2_field_count_witness :
    (find_fields_from_row [("z").data] [0, 3, 6, 9, 12]).length = [0, 3, 6, 9, 12].length - 1 ∧
    mkContainer [("a").data] = .error .typeError :=
  ⟨c2_field_count_amended.1 [("z").data] [0, 3, 6, 9, 12],
   c2_field_count_amended.2.1 [("a").data] (by decide)⟩

/-- Claim C3: when the predicate never becomes true (and, for the consul
wait, every attempt is either a failed check or a swallowed exception),
each polling loop terminates after exactly its timeout T of query
attempts and T one-second sleeps, raising the WaitTimeoutError that
carries the description of what was awaited; the elapsed wall time is
the T sleep seconds, at least T and less than T plus one interval. -/
theorem c3_poll_timeout :
    (∀ (q : Nat → List Container) (T : Nat), (∀ k, allUp (q k) = false) →
      wait_for_containers q T =
        ⟨.error ⟨"Timed out waiting for containers to start."⟩, T, T⟩) ∧
    (∀ (α : Type) (q : Nat → ConsulResult α) (count : Nat) (name : String) (T : Nat),
      (∀ j, wfs_continue q count j = true) →
      wait_for_service q count name T =
        ⟨.timeout ("Timeout waiting for " ++ name ++ " to be started"), T, T⟩) :=
  ⟨fun q T h => wfcAux_timeout q h T 0,
   fun _α q count name T h => wfsAux_timeout q count name h T 0⟩

/-- Witness for claim C3: a snapshot stuck on Restarting for three
budget units, and a consul service that never has nodes for four. -/
theorem c3_poll_timeout_witness :
    wait_for_containers c3_qDown 3 =
      ⟨.error ⟨"Timed out waiting for containers to start."⟩, 3, 3⟩ ∧
    wait_for_service c3_qEmpty 2 "api" 4 =
      ⟨.timeout ("Timeout waiting for " ++ "api" ++ " to be started"), 4, 4⟩ :=
  ⟨c3_poll_timeout.1 c3_qDown 3 (fun _ => rfl),
   c3_poll_timeout.2 Nat c3_qEmpty 2 "api" 4 (fun _ => rfl)⟩

/-- Claim C4, counterexample: the loop body of wait_for_service swallows
exactly ValueError and IndexError.  A first attempt raising the
IndexError of a malformed (too short) response tuple is swallowed and
polling continues to succeed on the second attempt, instead of the
malformed-structure error propagating immediately; and a first attempt
raising the ConnectionError of a temporarily unreachable registry
propagates immediately and aborts the wait, instead of being swallowed. -/
theorem c4_error_classes_counterexample :
    wait_for_service c4_qA 0 "app" 30 = ⟨.success [1], 2, 1⟩ ∧
    wait_for_service c4_qB 0 "app" 30 = ⟨.raised .connectionError, 1, 0⟩ :=
  ⟨rfl, rfl⟩

/-- Claim C4, amended: inside the bounded loop of wait_for_service, a
query raising ValueError or IndexError (including the IndexError of a
malformed response tuple) is swallowed and treated as predicate not yet
true, so polling continues and a later satisfying attempt succeeds; a
query raising any other exception, such as the ConnectionError of an
unreachable registry, propagates immediately and aborts the wait. -/
theorem c4_error_classes_amended :
    (∀ (α : Type) (q : Nat → ConsulResult α) (count : Nat) (name : String)
       (T i : Nat) (e : PyExc) (ns : List α),
       q i = .exn e → caught e = true →
       (∀ j, j < i → wfs_continue q count j = true) →
       q (i + 1) = .ok ns → wfsPred count ns = true → i + 1 < T →
       wait_for_service q count name T = ⟨.success ns, i + 2, i + 1⟩) ∧
    (∀ (α : Type) (q : Nat → ConsulResult α) (count : Nat) (name : String)
       (T i : Nat) (e : PyExc),
       q i = .exn e → caught e = false →
       (∀ j, j < i → wfs_continue q count j = true) →
       i < T →
       wait_for_service q count name T = ⟨.raised e, i + 1, i⟩) := by
  constructor
  · intro α q count name T i e ns hqe hce hcont hqn hp hT
    have h := wfsAux_success q count name ns (i + 1) T 0 ?_ ?_ hp hT
    · simpa [wait_for_service] using h
    · intro j hj
      rcases Nat.lt_succ_iff_lt_or_eq.mp hj with hj2 | hj2
      · simpa using hcont j hj2
      · subst hj2
        simp [wfs_continue, hqe, hce]
    · simpa using hqn
  · intro α q count name T i e hqe hce hcont hT
    have h := wfsAux_raised q count name e i T 0 ?_ ?_ hce hT
    · simpa [wait_for_service] using h
    · intro j hj
      simpa using hcont j hj
    · simpa using hqe

/-- Witness for the amended claim C4, at the two concrete query
sequences with a five-unit budget and service name db. -/
theorem c4_error_classes_witness :
    wait_for_service c4_qA 0 "db" 5 = ⟨.success [1], 2, 1⟩ ∧
    wait_for_service c4_qB 0 "db" 5 = ⟨.raised .connectionError, 1, 0⟩ :=
  ⟨c4_error_classes_amended.1 Nat c4_qA 0 "db" 5 0 .indexError [1] rfl rfl
     (fun j hj => absurd hj (Nat.not_lt_zero j)) rfl rfl (by decide),
   c4_error_classes_amended.2 Nat c4_qB 0 "db" 5 0 .connectionError rfl rfl
     (fun j hj => absurd hj (Nat.not_lt_zero j)) (by decide)⟩

/-- Claim C5, counterexample: wait_for_service_removed with one node on
the first attempt and none on the second returns after two attempts, but
its return value is the literal Python True, not the query result of the
breaking attempt (the empty node list): the code returns True at line
503, discarding nodes. -/
theorem c5_removed_return_counterexample :
    wait_for_service_removed c5_q "api" 30 = ⟨.success (.bool true), 2, 1⟩ ∧
    PyVal.bool true ≠ PyVal.list ([] : List Nat) :=
  ⟨rfl, by simp⟩

/-- Claim C5, amended: if the predicate first holds on query attempt
i + 1 within the budget, wait_for_service returns after exactly i + 1
attempts (and i sleeps) with the node list produced by that attempt,
regardless of the earlier attempts' results; wait_for_service_removed
likewise returns after exactly i + 1 attempts, but its return value is
the constant True rather than the breaking attempt's query result. -/
theorem c5_poll_success_amended :
    (∀ (α : Type) (q : Nat → ConsulResult α) (count : Nat) (name : String)
       (T i : Nat) (ns : List α),
       (∀ j, j < i → wfs_continue q count j = true) →
       q i = .ok ns → wfsPred count ns = true → i < T →
       wait_for_service q count name T = ⟨.success ns, i + 1, i⟩) ∧
    (∀ (α : Type) (q : Nat → ConsulResult α) (name : String) (T i : Nat),
       (∀ j, j < i → wfsr_continue q j = true) →
       q i = .ok ([] : List α) → i < T →
       wait_for_service_removed q name T = ⟨.success (.bool true), i + 1, i⟩) := by
  constructor
  · intro α q count name T i ns hcont hq hp hT
    have h := wfsAux_success q count name ns i T 0 ?_ ?_ hp hT
    · simpa [wait_for_service] using h
    · intro j hj
      simpa using hcont j hj
    · simpa using hq
  · intro α q name T i hcont hq hT
    have h := wfsrAux_success q name i T 0 ?_ ?_ hT
    · simpa [wait_for_service_removed] using h
    · intro j hj
      simpa using hcont j hj
    · simpa using hq

/-- Witness for the amended claim C5: the service wait first satisfied
on the second attempt with two nodes, and the removal wait first empty
on the second attempt. -/
theorem c5_poll_success_witness :
    wait_for_service c5w_q 2 "api" 6 = ⟨.success [3, 4], 2, 1⟩ ∧
    wait_for_service_removed c5_q "api" 6 = ⟨.success (.bool true), 2, 1⟩ :=
  ⟨c5_poll_success_amended.1 Nat c5w_q 2 "api" 6 1 [3, 4]
     (fun j hj => by
       have : j = 0 := by omega
       subst this
       rfl)
     rfl rfl (by decide),
   c5_poll_success_amended.2 Nat c5_q "api" 6 1
     (fun j hj => by
       have : j = 0 := by omega
       subst this
       rfl)
     rfl (by decide)⟩

/-- Claim C6 (a code bug): docker lets non-zero exit status surface as a
CalledProcessError carrying the full command vector, the exit status and
the captured output, and returns the merged output on status zero; but
compose, contradicting both the claim and its own docstring, catches the
CalledProcessError of a non-zero exit, prints the output and converts it
into the unittest failure raised by self.fail, so no CalledProcessError
reaches the caller of compose.  Neither function retries. -/
theorem c6_command_failure_eval :
    docker c6_fail_exec ["ps"] 7 [] =
      (.error ⟨["docker", "ps"], 1, "boom"⟩, [⟨"run", ["docker", "ps"], 7⟩]) ∧
    docker c6_ok_exec ["ps"] 7 [] = (.ok "out", [⟨"run", ["docker", "ps"], 7⟩]) ∧
    compose c6_fail_exec "p" "docker-compose.yml" ["ps"] 7 [] =
      (.testFailure ⟨["docker-compose", "-f", "docker-compose.yml", "-p", "p", "ps"], 1, "boom"⟩,
       [⟨"run", ["docker-compose", "-f", "docker-compose.yml", "-p", "p", "ps"], 7⟩]) ∧
    compose c6_ok_exec "p" "docker-compose.yml" ["ps"] 7 [] =
      (.ok "out", [⟨"run", ["docker-compose", "-f", "docker-compose.yml", "-p", "p", "ps"], 7⟩]) :=
  ⟨rfl, rfl, rfl, rfl⟩

/-- Claim C7: every invocation of instrument appends exactly one record,
holding the operation name, the arguments and the elapsed time, to the
instrumentation log, leaving the log otherwise unchanged, and does so on
the success path and on the exception path alike before the result or
the failure reaches the caller; the result is exactly that of the
wrapped call. -/
theorem c7_instrument_complete (opName : String)
    (fn : List String → Except CalledProcessError String) (args : List String)
    (elapsed : Nat) (log : List InstrCall) :
    instrument opName fn args elapsed log = (fn args, log ++ [⟨opName, args, elapsed⟩]) := by
  unfold instrument
  cases fn args <;> rfl

/-- Claim C8, counterexample: the row-grouping test at line 280 is
line.startswith applied to the single space character, not to whitespace
in general.  A continuation line indented with a tab starts with
whitespace but not with a space, so it opens a new logical row: the
wrapped listing whose ports column continues on a tab-indented second
line is decoded as two records, not reassembled into one. -/
theorem c8_tab_counterexample :
    compose_ps c8_tab_input =
      .ok [⟨("app_1").data, ("/bin/app").data, ("Up").data,
            ("10.0.0.1:80->80/tcp,").data⟩,
           ⟨("443/tc").data, ("p").data, [], []⟩] := by
  rfl

/-- Claim C8, amended: a logical row whose text is split across physical
lines, every continuation line starting with a space character (the code
tests startswith of a single space, not general whitespace), is grouped
into exactly one row (never two, and rows cannot interleave because
continuation lines always join the current last row); and on the
concrete wrapped listing, whose ports column continues on a
space-indented second line, compose_ps yields exactly one record whose
every field is the concatenation of that column window's slice of each
physical line. -/
theorem c8_wrap_reconstruction :
    (∀ (l0 : List Char) (conts : List (List Char)),
      startsWithSpace l0 = false → (∀ l ∈ conts, startsWithSpace l = true) →
      find_rows_from_lines (l0 :: conts) = .ok [l0 :: conts]) ∧
    compose_ps c8_input =
      .ok [⟨("app_1").data, ("/bin/app").data, ("Up").data,
            ("10.0.0.1:80->80/tcp,443/tcp").data⟩] :=
  ⟨find_rows_single, by rfl⟩

/-- Witness for the amended claim C8, at a two-line logical row whose
continuation line starts with a space. -/
theorem c8_wrap_reconstruction_witness :
    find_rows_from_lines [("a").data, (" b").data] = .ok [[("a").data, (" b").data]] :=
  c8_wrap_reconstruction.1 ("a").data [(" b").data] rfl
    (fun l hl => by
      rw [List.mem_singleton] at hl
      subst hl
      rfl)

/-- Claim C9: the field post-processing collapses every run of two or
more spaces to a single space (the collapsed text never contains two
consecutive spaces), trims leading and trailing whitespace (the stripped
text neither starts nor ends with whitespace), and removes spaces
directly after periods; in particular the field text 10. 0. 0. 1 as
produced by the collapse step is repaired to 10.0.0.1, and a field with
padding and internal runs of spaces is collapsed and trimmed. -/
theorem c9_field_scrub :
    (∀ f : List Char, noDoubleSpace (collapseSpaces f) = true) ∧
    (∀ f : List Char, strippedOk (pyStrip f) = true) ∧
    scrubField (("10. 0. 0. 1").data) = ("10.0.0.1").data ∧
    scrubField (("  a   b  ").data) = ("a b").data :=
  ⟨fun f => collapseGo_noDouble f false, strippedOk_pyStrip, by rfl, by rfl⟩

/-- Claim C10: when the first snapshot query returns the empty container
list, the all-up predicate is vacuously true, so wait_for_containers
returns success immediately for every positive timeout: one query
attempt, no sleep, no WaitTimeoutError. -/
theorem c10_empty_snapshot (q : Nat → List Container) (T : Nat) (hT : 0 < T)
    (h0 : q 0 = []) : wait_for_containers q T = ⟨.ok (), 1, 0⟩ := by
  cases T with
  | zero => omega
  | succ t =>
    unfold wait_for_containers wfcAux
    simp [h0, allUp]

/-- Witness for claim C10, at the constantly empty snapshot sequence and
a timeout of five. -/
theorem c10_empty_snapshot_witness :
    wait_for_containers (fun _ => []) 5 = ⟨.ok (), 1, 0⟩ :=
  c10_empty_snapshot (fun _ => []) 5 (by decide) rfl
